import Mathlib

/-!
Verification development for the JWT binding-and-codec core
(`algorithm.ts` and the signature codec module).

The embedding mirrors the runtime semantics of the TypeScript source.
Since TypeScript types are erased at runtime and `getAlgorithm` switches
over arbitrary string values (with a throwing default branch), algorithm
identifiers are modelled as `String`.  Thrown `Error`s are modelled with
`Except JwtError`, where `JwtError` distinguishes the three error messages
the source can produce.  Byte sequences (`Uint8Array`) are modelled as
`List Nat` with each element a byte value.
-/

namespace Jwt

/--
Errors thrown by the source, one constructor per distinct `throw` site:
* `keyNotAllowed alg` — "The alg '...' does not allow a key." (algorithm.ts)
* `keyRequired alg` — "The alg '...' demands a key." (algorithm.ts)
* `unsupportedAlgorithm alg` — "The jwt's alg '...' is not supported." (algorithm.ts)
-/
inductive JwtError where
  | keyNotAllowed (alg : String)
  | keyRequired (alg : String)
  | unsupportedAlgorithm (alg : String)
deriving DecidableEq, Repr

/--
The shape of the objects returned by `getAlgorithm` in `algorithm.ts`
(the union `HmacAlgorithm | RsaAlgorithm | PssAlgorithm | EcdsaAlgorithm`).
All four variants carry `name` and `hash.name`; `saltLength` is present
only for RSA-PSS and `namedCurve` only for ECDSA, modelled with `Option`.
`hashName` stands for the nested `hash.name` field.
-/
structure AlgorithmDefinition where
  name : String
  hashName : String
  saltLength : Option Nat
  namedCurve : Option String
deriving DecidableEq, Repr

/--
The algorithm descriptor reported by a `CryptoKey` (`key.algorithm`), as the
source inspects it: `isHashedKeyAlgorithm` checks that `algorithm.hash?.name`
is a string, and `isEcKeyAlgorithm` checks that `algorithm.namedCurve` is a
string.  `hashName = some h` models a descriptor whose `hash.name` is the
string `h`; `none` models a descriptor with no string-valued `hash.name`.
Likewise for `namedCurve`.
-/
structure KeyAlgorithmDescriptor where
  name : String
  hashName : Option String
  namedCurve : Option String
deriving DecidableEq, Repr

/--
A `CryptoKey`: the core reads only its `algorithm` descriptor and passes the
key opaquely to the crypto engine.  `material` stands for the opaque key
material the engine consumes; the core never inspects it.
-/
structure CryptoKey where
  algorithm : KeyAlgorithmDescriptor
  material : List Nat
deriving DecidableEq, Repr

/--
`isHashedKeyAlgorithm` from `algorithm.ts`: true when the descriptor's
`hash?.name` is a string.
-/
def isHashedKeyAlgorithm (a : KeyAlgorithmDescriptor) : Bool :=
  a.hashName.isSome

/--
`isEcKeyAlgorithm` from `algorithm.ts` applied to a key descriptor: true when
the descriptor's `namedCurve` is a string.
-/
def isEcKeyAlgorithm (a : KeyAlgorithmDescriptor) : Bool :=
  a.namedCurve.isSome

/--
`isEcKeyAlgorithm` from `algorithm.ts` applied to the definition returned by
`getAlgorithm`: true when its `namedCurve` is a string.
-/
def isEcAlgorithmDefinition (a : AlgorithmDefinition) : Bool :=
  a.namedCurve.isSome

/--
`getAlgorithm` from `algorithm.ts`: the switch over the algorithm identifier,
one case per supported value in source order, with the throwing default
branch.  Salt lengths are written `n >>> 3` as in the source (`n >> 3`).
-/
def getAlgorithm (alg : String) : Except JwtError AlgorithmDefinition :=
  if alg = "HS256" then .ok ⟨"HMAC", "SHA-256", none, none⟩
  else if alg = "HS384" then .ok ⟨"HMAC", "SHA-384", none, none⟩
  else if alg = "HS512" then .ok ⟨"HMAC", "SHA-512", none, none⟩
  else if alg = "PS256" then .ok ⟨"RSA-PSS", "SHA-256", some (256 >>> 3), none⟩
  else if alg = "PS384" then .ok ⟨"RSA-PSS", "SHA-384", some (384 >>> 3), none⟩
  else if alg = "PS512" then .ok ⟨"RSA-PSS", "SHA-512", some (512 >>> 3), none⟩
  else if alg = "RS256" then .ok ⟨"RSASSA-PKCS1-v1_5", "SHA-256", none, none⟩
  else if alg = "RS384" then .ok ⟨"RSASSA-PKCS1-v1_5", "SHA-384", none, none⟩
  else if alg = "RS512" then .ok ⟨"RSASSA-PKCS1-v1_5", "SHA-512", none, none⟩
  else if alg = "ES256" then .ok ⟨"ECDSA", "SHA-256", none, some "P-256"⟩
  else if alg = "ES384" then .ok ⟨"ECDSA", "SHA-384", none, some "P-384"⟩
  else .error (.unsupportedAlgorithm alg)

/-- The eleven supported non-`none` identifiers, in source order. -/
def supportedNonNone : List String :=
  ["HS256", "HS384", "HS512", "PS256", "PS384", "PS512",
   "RS256", "RS384", "RS512", "ES256", "ES384"]

/--
`verify` from `algorithm.ts` (the key-compatibility check,
`keyMatchesAlgorithm` in the design): for `none`, the key must be absent;
otherwise the key must be present, and then the key's reported algorithm is
compared with the definition resolved for `alg`, first by family name, then
by hash name when the key descriptor is hash-shaped, else by named curve
when both descriptors are curve-shaped, else `false`.
-/
def keyVerify (alg : String) (key : Option CryptoKey) : Except JwtError Bool :=
  if alg = "none" then
    match key with
    | some _ => .error (.keyNotAllowed alg)
    | none => .ok true
  else
    match key with
    | none => .error (.keyRequired alg)
    | some k => do
      let keyAlgorithm := k.algorithm
      let algAlgorithm ← getAlgorithm alg
      if keyAlgorithm.name = algAlgorithm.name then
        if isHashedKeyAlgorithm keyAlgorithm then
          return keyAlgorithm.hashName = some algAlgorithm.hashName
        else if isEcKeyAlgorithm keyAlgorithm
            && isEcAlgorithmDefinition algAlgorithm then
          return keyAlgorithm.namedCurve = algAlgorithm.namedCurve
        else
          return false
      else
        return false

/--
Models `TextEncoder.encode` (the `encoder` of `util.ts`): UTF-8 encoding of
one character from its code point.
-/
def utf8EncodeChar (c : Char) : List Nat :=
  let n := c.toNat
  if n < 0x80 then [n]
  else if n < 0x800 then [0xC0 + n / 64, 0x80 + n % 64]
  else if n < 0x10000 then
    [0xE0 + n / 4096, 0x80 + n / 64 % 64, 0x80 + n % 64]
  else
    [0xF0 + n / 262144, 0x80 + n / 4096 % 64, 0x80 + n / 64 % 64,
     0x80 + n % 64]

/-- Models `encoder.encode` from `util.ts`: UTF-8 bytes of a string. -/
def strEncode (s : String) : List Nat :=
  (s.data.map utf8EncodeChar).flatten

/-- The base64url alphabet character for a 6-bit value. -/
def b64Char (n : Nat) : Char :=
  if n < 26 then Char.ofNat (65 + n)
  else if n < 52 then Char.ofNat (97 + (n - 26))
  else if n < 62 then Char.ofNat (48 + (n - 52))
  else if n = 62 then Char.ofNat 45
  else Char.ofNat 95

/--
Models `encodeBase64Url` from `@std/encoding/base64url`: URL-safe base64
of a byte sequence, without padding.
-/
def encodeBase64Url : List Nat → String
  | [] => ""
  | [a] => String.mk [b64Char (a / 4 % 64), b64Char (a % 4 * 16)]
  | [a, b] =>
    String.mk [b64Char (a / 4 % 64), b64Char (a % 4 * 16 + b / 16),
               b64Char (b % 16 * 4)]
  | a :: b :: c :: rest =>
    String.mk [b64Char (a / 4 % 64), b64Char (a % 4 * 16 + b / 16),
               b64Char (b % 16 * 4 + c / 64), b64Char (c % 64)]
      ++ encodeBase64Url rest

/--
The signing capability of the external crypto engine
(`crypto.subtle.sign`): definition, key, message bytes ↦ signature bytes.
The engine is an external collaborator; theorems quantify over it.
-/
def SignEngine : Type :=
  AlgorithmDefinition → CryptoKey → List Nat → List Nat

/--
The verification capability of the external crypto engine
(`crypto.subtle.verify`): definition, key, signature bytes, message bytes ↦
boolean verdict.
-/
def VerifyEngine : Type :=
  AlgorithmDefinition → CryptoKey → List Nat → List Nat → Bool

namespace Signature

/--
`verify` from the signature codec module: absent key ⇒ the verdict is
`signature.length === 0`; present key ⇒ delegate to the engine with the
definition resolved by `getAlgorithm` (whose failure propagates).
-/
def verify (vf : VerifyEngine) (signature : List Nat) (key : Option CryptoKey)
    (alg : String) (signingInput : String) : Except JwtError Bool :=
  match key with
  | none => .ok (signature.length = 0)
  | some k =>
    (getAlgorithm alg).map fun d => vf d k signature (strEncode signingInput)

/--
`create` from the signature codec module: absent key ⇒ the empty string;
present key ⇒ the base64url encoding of the bytes the engine signs the
UTF-8 signing input into, with `getAlgorithm` failure propagating.
-/
def create (sf : SignEngine) (alg : String) (key : Option CryptoKey)
    (signingInput : String) : Except JwtError String :=
  match key with
  | none => .ok ""
  | some k =>
    (getAlgorithm alg).map fun d =>
      encodeBase64Url (sf d k (strEncode signingInput))

end Signature

/--
The compatibility relation the code actually implements between a key's
reported algorithm descriptor and a resolved definition: family names equal,
and then the key descriptor's shape decides the comparison — a hash-shaped
key descriptor is compared by hash name (for every family, ECDSA included),
otherwise a curve-shaped key descriptor is compared by named curve when the
definition is curve-shaped, otherwise incompatible.
-/
def Compatible (ka : KeyAlgorithmDescriptor) (d : AlgorithmDefinition) : Prop :=
  ka.name = d.name ∧
    match ka.hashName with
    | some h => h = d.hashName
    | none => ka.namedCurve.isSome ∧ d.namedCurve.isSome
        ∧ ka.namedCurve = d.namedCurve

/-- An HMAC/SHA-256 key as WebCrypto would report it. -/
def hs256Key : CryptoKey := ⟨⟨"HMAC", some "SHA-256", none⟩, [1, 2, 3]⟩

/-- The same HMAC/SHA-256 descriptor with different key material. -/
def hs256KeyAlt : CryptoKey := ⟨⟨"HMAC", some "SHA-256", none⟩, [9, 2, 3]⟩

/--
A key whose descriptor has family name ECDSA and a P-384 curve but is also
hash-shaped (`hash.name` present as a string).
-/
def ecdsaHashShapedKey : CryptoKey :=
  ⟨⟨"ECDSA", some "SHA-256", some "P-384"⟩, []⟩

/-- A model crypto engine that signs with a constant byte. -/
def constSign : SignEngine := fun _ _ _ => [0]

/-- A model crypto engine signing by concatenating key material and message. -/
def concatSign : SignEngine := fun _ k m => k.material ++ m

/--
The exact-verification engine induced by a deterministic signing engine:
accepts a signature precisely when it equals the engine's own signature.
-/
def exactVerify (sf : SignEngine) : VerifyEngine :=
  fun d k s m => decide (s = sf d k m)

/--
C2: for every supported identifier except `none`, `getAlgorithm` returns
exactly the definition of the table: HS256/384/512 ↦ HMAC with
SHA-256/384/512; RS256/384/512 ↦ RSASSA-PKCS1-v1_5 with SHA-256/384/512;
PS256/384/512 ↦ RSA-PSS with SHA-256/384/512 and salt length 32/48/64
bytes; ES256 ↦ ECDSA, SHA-256, P-256; ES384 ↦ ECDSA, SHA-384, P-384.
-/
theorem getAlgorithm_table :
    getAlgorithm "HS256" = .ok ⟨"HMAC", "SHA-256", none, none⟩ ∧
    getAlgorithm "HS384" = .ok ⟨"HMAC", "SHA-384", none, none⟩ ∧
    getAlgorithm "HS512" = .ok ⟨"HMAC", "SHA-512", none, none⟩ ∧
    getAlgorithm "RS256" = .ok ⟨"RSASSA-PKCS1-v1_5", "SHA-256", none, none⟩ ∧
    getAlgorithm "RS384" = .ok ⟨"RSASSA-PKCS1-v1_5", "SHA-384", none, none⟩ ∧
    getAlgorithm "RS512" = .ok ⟨"RSASSA-PKCS1-v1_5", "SHA-512", none, none⟩ ∧
    getAlgorithm "PS256" = .ok ⟨"RSA-PSS", "SHA-256", some 32, none⟩ ∧
    getAlgorithm "PS384" = .ok ⟨"RSA-PSS", "SHA-384", some 48, none⟩ ∧
    getAlgorithm "PS512" = .ok ⟨"RSA-PSS", "SHA-512", some 64, none⟩ ∧
    getAlgorithm "ES256" = .ok ⟨"ECDSA", "SHA-256", none, some "P-256"⟩ ∧
    getAlgorithm "ES384" = .ok ⟨"ECDSA", "SHA-384", none, some "P-384"⟩ :=
  ⟨rfl, rfl, rfl, rfl, rfl, rfl, rfl, rfl, rfl, rfl, rfl⟩

/--
C7: `getAlgorithm` fails with the unsupported-algorithm error on every
identifier outside the eleven-value non-`none` supported set — in
particular on `none` and on `ES512` — and never falls through to a
default definition.
-/
theorem getAlgorithm_unsupported (alg : String)
    (h : alg ∉ supportedNonNone) :
    getAlgorithm alg = .error (.unsupportedAlgorithm alg) := by
  simp only [supportedNonNone, List.mem_cons, List.not_mem_nil, or_false,
    not_or] at h
  obtain ⟨h1, h2, h3, h4, h5, h6, h7, h8, h9, h10, h11⟩ := h
  simp [getAlgorithm, h1, h2, h3, h4, h5, h6, h7, h8, h9, h10, h11]

/--
Witness for C7: both `ES512` and `none` are outside the supported set and
are rejected with the unsupported-algorithm error.
-/
theorem getAlgorithm_unsupported_witness :
    ("ES512" ∉ supportedNonNone ∧
      getAlgorithm "ES512" = .error (.unsupportedAlgorithm "ES512")) ∧
    ("none" ∉ supportedNonNone ∧
      getAlgorithm "none" = .error (.unsupportedAlgorithm "none")) :=
  ⟨⟨by decide, getAlgorithm_unsupported "ES512" (by decide)⟩,
   ⟨by decide, getAlgorithm_unsupported "none" (by decide)⟩⟩

/--
C3: the key-compatibility check enforces the key-presence protocol:
for `none` it returns `true` exactly when the key is absent and fails with
the key-not-allowed error when a key is present; for every other identifier
with an absent key it fails with the key-required error.
-/
theorem keyVerify_presence :
    keyVerify "none" none = .ok true ∧
    (∀ k, keyVerify "none" (some k) = .error (.keyNotAllowed "none")) ∧
    (∀ alg, alg ≠ "none" → keyVerify alg none = .error (.keyRequired alg)) := by
  refine ⟨rfl, fun k => rfl, fun alg h => ?_⟩
  simp [keyVerify, h]

/--
Witness for C3: `HS256` is not `none`, and the check with an absent key
fails with the key-required error there.
-/
theorem keyVerify_presence_witness :
    ("HS256" : String) ≠ "none" ∧
    keyVerify "HS256" none = .error (.keyRequired "HS256") :=
  ⟨by decide, keyVerify_presence.2.2 "HS256" (by decide)⟩

/--
C5: the codec's `verify` with an absent key returns `true` exactly when the
signature byte sequence is empty, for every identifier and signing input,
and never consults the engine or raises an error (in particular a non-empty
signature with identifier `none` yields `false`).
-/
theorem signature_verify_absent_key (vf : VerifyEngine) (signature : List Nat)
    (alg : String) (input : String) :
    Signature.verify vf signature none alg input
      = .ok (decide (signature.length = 0)) ∧
    (Signature.verify vf signature none alg input = .ok true ↔
      signature = []) ∧
    (signature ≠ [] →
      Signature.verify vf signature none alg input = .ok false) := by
  refine ⟨rfl, ?_, ?_⟩
  · simp [Signature.verify, List.length_eq_zero]
  · intro h
    simp [Signature.verify, List.length_eq_zero, h]

/--
Witness for C5: with `none`, an absent key and a non-empty signature, the
codec's `verify` returns `false`.
-/
theorem signature_verify_absent_key_witness :
    Signature.verify (exactVerify constSign) [1] none "none" "abc.def"
      = .ok false :=
  (signature_verify_absent_key (exactVerify constSign) [1] "none"
    "abc.def").2.2 (by decide)

/--
C6: the codec's `create` with identifier `none` and no key returns the
empty signature for every signing input and every engine — so the engine
is never consulted.
-/
theorem signature_create_none (sf : SignEngine) (input : String) :
    Signature.create sf "none" none input = .ok "" := rfl

/--
C9: the codec's `create` returns the empty signature whenever the key is
absent, for every identifier (including non-`none` ones such as `HS256`),
every engine, and every signing input, without raising an error and without
consulting the identifier or the engine.
-/
theorem signature_create_absent_key (sf : SignEngine) (alg : String)
    (input : String) :
    Signature.create sf alg none input = .ok "" := rfl

/--
C10: when a key is present and the identifier is `none`, both `create` and
`verify` in the codec fail with the unsupported-algorithm error propagated
from `getAlgorithm`, rather than returning an empty signature or a boolean
verdict.
-/
theorem signature_none_with_key_errors (sf : SignEngine) (vf : VerifyEngine)
    (k : CryptoKey) (signature : List Nat) (input : String) :
    Signature.create sf "none" (some k) input
      = .error (.unsupportedAlgorithm "none") ∧
    Signature.verify vf signature (some k) "none" input
      = .error (.unsupportedAlgorithm "none") :=
  ⟨rfl, rfl⟩

/--
Reduction of the key-compatibility check when the identifier resolves:
the result is `.ok` of the boolean the nested comparisons compute.
-/
theorem keyVerify_reduce (alg : String) (k : CryptoKey)
    (d : AlgorithmDefinition) (hne : alg ≠ "none")
    (hres : getAlgorithm alg = .ok d) :
    keyVerify alg (some k) = .ok (
      if k.algorithm.name = d.name then
        if isHashedKeyAlgorithm k.algorithm then
          decide (k.algorithm.hashName = some d.hashName)
        else if isEcKeyAlgorithm k.algorithm
            && isEcAlgorithmDefinition d then
          decide (k.algorithm.namedCurve = d.namedCurve)
        else false
      else false) := by
  unfold keyVerify
  rw [if_neg hne]
  show Except.bind (getAlgorithm alg) _ = _
  rw [hres]
  show (if _ then _ else _) = _
  split_ifs <;> rfl

/--
C1 counterexample: for `ES256` (expected curve P-256) and a present key
whose descriptor has family name `ECDSA`, named curve P-384, and is also
hash-shaped with `SHA-256`, the check returns `true` even though the key's
named curve differs from the expected curve — the hash-shape branch takes
precedence over the ECDSA curve comparison.
-/
theorem keyVerify_hash_shape_overrides_curve :
    getAlgorithm "ES256" = .ok ⟨"ECDSA", "SHA-256", none, some "P-256"⟩ ∧
    ecdsaHashShapedKey.algorithm.name = "ECDSA" ∧
    ecdsaHashShapedKey.algorithm.namedCurve = some "P-384" ∧
    (some "P-384" : Option String) ≠ some "P-256" ∧
    keyVerify "ES256" (some ecdsaHashShapedKey) = .ok true :=
  ⟨rfl, rfl, rfl, by decide, rfl⟩

/--
C1 amended: for every identifier that resolves to a definition and every
present key, the check returns an ordinary boolean (never an exception),
and it returns `true` precisely when the family names are equal and then
the key descriptor's shape decides: a hash-shaped descriptor is compared by
hash name (whatever the family), otherwise curve-shaped descriptors are
compared by named curve, otherwise the key is incompatible.
-/
theorem keyVerify_compat_characterization (alg : String) (k : CryptoKey)
    (d : AlgorithmDefinition) (hres : getAlgorithm alg = .ok d) :
    (∃ b, keyVerify alg (some k) = .ok b) ∧
    (keyVerify alg (some k) = .ok true ↔ Compatible k.algorithm d) := by
  have hne : alg ≠ "none" := by
    intro h
    rw [h, show getAlgorithm "none"
      = .error (.unsupportedAlgorithm "none") from rfl] at hres
    cases hres
  rw [keyVerify_reduce alg k d hne hres]
  refine ⟨⟨_, rfl⟩, ?_⟩
  rcases k with ⟨⟨kname, khash, kcurve⟩, mat⟩
  rcases d with ⟨dname, dhash, dsalt, dcurve⟩
  rcases khash with _ | h <;> rcases kcurve with _ | kc <;>
    rcases dcurve with _ | dc <;> by_cases hn : kname = dname <;>
    simp [Compatible, isHashedKeyAlgorithm, isEcKeyAlgorithm,
      isEcAlgorithmDefinition, hn]

/--
Witness for the amended C1: `HS256` resolves, and the characterization
holds for the matching HMAC/SHA-256 key.
-/
theorem keyVerify_compat_characterization_witness :
    getAlgorithm "HS256" = .ok ⟨"HMAC", "SHA-256", none, none⟩ ∧
    ((∃ b, keyVerify "HS256" (some hs256Key) = .ok b) ∧
     (keyVerify "HS256" (some hs256Key) = .ok true ↔
       Compatible hs256Key.algorithm ⟨"HMAC", "SHA-256", none, none⟩)) :=
  ⟨rfl, keyVerify_compat_characterization "HS256" hs256Key
    ⟨"HMAC", "SHA-256", none, none⟩ rfl⟩

/--
C4 counterexample: with an engine producing the raw signature byte
sequence `[0]`, `create` for `HS256` returns the base64url string `"AA"`,
whose bytes `[65, 65]` are not the engine's raw bytes `[0]` — the
base64url re-encoding happens inside the operation, so `create` does not
return the raw signature bytes.
-/
theorem create_encodes_counterexample :
    constSign ⟨"HMAC", "SHA-256", none, none⟩ hs256Key (strEncode "ab")
      = [0] ∧
    Signature.create constSign "HS256" (some hs256Key) "ab" = .ok "AA" ∧
    strEncode "AA" = [65, 65] ∧ ([65, 65] : List Nat) ≠ [0] :=
  ⟨rfl, rfl, rfl, by decide⟩

/--
C4 amended: for every engine, every identifier that resolves, every
present key and every signing input, `create` returns exactly the
base64url encoding of the untruncated raw signature bytes the engine
produces over the UTF-8 signing input — the encoding is applied inside
the operation.
-/
theorem create_returns_base64url (sf : SignEngine) (alg : String)
    (k : CryptoKey) (input : String) (d : AlgorithmDefinition)
    (hres : getAlgorithm alg = .ok d) :
    Signature.create sf alg (some k) input
      = .ok (encodeBase64Url (sf d k (strEncode input))) := by
  simp [Signature.create, hres, Except.map]

/--
Witness for the amended C4: the concatenating model engine, `HS256`, a
present key and input `"a"`.
-/
theorem create_returns_base64url_witness :
    getAlgorithm "HS256" = .ok ⟨"HMAC", "SHA-256", none, none⟩ ∧
    Signature.create concatSign "HS256" (some hs256Key) "a"
      = .ok (encodeBase64Url
          (concatSign ⟨"HMAC", "SHA-256", none, none⟩ hs256Key
            (strEncode "a"))) :=
  ⟨rfl, create_returns_base64url concatSign "HS256" hs256Key "a"
    ⟨"HMAC", "SHA-256", none, none⟩ rfl⟩

/--
C8: under an exact model of the crypto engine (its verdict is equality
with its own deterministic signature), sign-then-verify with the same key,
identifier and signing input accepts: `create` returns the base64url
encoding of the raw signature bytes, and `verify` on those raw bytes
returns `true`; `verify` returns `false` for any other signature, and for
a different signing input or a different key whenever the engine's
signature there differs (as a faithful engine's does).
-/
theorem sign_verify_roundtrip (sf : SignEngine) (vf : VerifyEngine)
    (alg : String) (k : CryptoKey) (input : String)
    (d : AlgorithmDefinition) (hres : getAlgorithm alg = .ok d)
    (hengine : ∀ k' s m, vf d k' s m = decide (s = sf d k' m)) :
    Signature.create sf alg (some k) input
      = .ok (encodeBase64Url (sf d k (strEncode input))) ∧
    Signature.verify vf (sf d k (strEncode input)) (some k) alg input
      = .ok true ∧
    (∀ s, s ≠ sf d k (strEncode input) →
      Signature.verify vf s (some k) alg input = .ok false) ∧
    (∀ input', sf d k (strEncode input') ≠ sf d k (strEncode input) →
      Signature.verify vf (sf d k (strEncode input)) (some k) alg input'
        = .ok false) ∧
    (∀ k', sf d k' (strEncode input) ≠ sf d k (strEncode input) →
      Signature.verify vf (sf d k (strEncode input)) (some k') alg input
        = .ok false) := by
  refine ⟨?_, ?_, ?_, ?_, ?_⟩
  · simp [Signature.create, hres, Except.map]
  · simp [Signature.verify, hres, hengine, Except.map]
  · intro s hs
    simp [Signature.verify, hres, hengine, hs, Except.map]
  · intro input' hI
    simp only [Signature.verify, hres, Except.map, hengine]
    rw [decide_eq_false (Ne.symm hI)]
  · intro k' hk
    simp only [Signature.verify, hres, Except.map, hengine]
    rw [decide_eq_false (Ne.symm hk)]

/--
Witness for C8: the concatenating model engine with its exact verifier,
`HS256`, key material `[1, 2, 3]` and input `"a"`; flipping the signature,
one byte of the input (`"b"`), or one byte of the key material (`[9, 2, 3]`)
makes `verify` return `false`.
-/
theorem sign_verify_roundtrip_witness :
    Signature.verify (exactVerify concatSign)
      (concatSign ⟨"HMAC", "SHA-256", none, none⟩ hs256Key (strEncode "a"))
      (some hs256Key) "HS256" "a" = .ok true ∧
    Signature.verify (exactVerify concatSign) [9, 9]
      (some hs256Key) "HS256" "a" = .ok false ∧
    Signature.verify (exactVerify concatSign)
      (concatSign ⟨"HMAC", "SHA-256", none, none⟩ hs256Key (strEncode "a"))
      (some hs256Key) "HS256" "b" = .ok false ∧
    Signature.verify (exactVerify concatSign)
      (concatSign ⟨"HMAC", "SHA-256", none, none⟩ hs256Key (strEncode "a"))
      (some hs256KeyAlt) "HS256" "a" = .ok false := by
  have T := sign_verify_roundtrip concatSign (exactVerify concatSign)
    "HS256" hs256Key "a" ⟨"HMAC", "SHA-256", none, none⟩ rfl
    (fun k' s m => rfl)
  exact ⟨T.2.1, T.2.2.1 [9, 9] (by decide), T.2.2.2.1 "b" (by decide),
    T.2.2.2.2 hs256KeyAlt (by decide)⟩

end Jwt
